import Mathlib

/-!
Verification development for the EasyGUI widget core
(repository guitarhua/EasyGUI, file 01-DEV_RTOS/User/main.c with the
appended header gui_widget.h).

The header under src provides the widget-core macros
(guii_widget_iswidget, guii_widget_getrelativex/y, guii_widget_getflag,
guii_widget_getparent, guii_widget_hasparent, guii_widget_callback,
guii_widget_getcolor, guii_widget_getinnerwidth/height,
guii_widget_getparentinnerwidth/height, ...).  Function bodies declared in
the header (gui_widget_getwidth, gui_widget_settext, guii_widget_focus_set,
the clipping evaluator, ...) are not under src; those definitions are
modelled from the spec and carry a doc comment saying so.

Machine numbers: the C float fields (x, y, width, height) are embedded as
integers.  Every concrete value in the claims is integer-valued; integer
operands below 2^24 add and multiply exactly in IEEE single precision, and
the final float division by 100.0f followed by a truncating cast agrees with
exact integer truncation for all in-range widget dimensions (the quotient's
float rounding error is below 2^-10 while its distance to the next integer
is at least 1/100), so the integer embedding is faithful on this scope.
C integer casts truncate toward zero, embedded as Int.tdiv.
-/

namespace EasyGUI

/-- Footprint constant GUI_WIDGET_FOOTPRINT from gui_widget.h line 290. -/
def GUI_WIDGET_FOOTPRINT : Nat := 0x00ACCE55

/-- Modelled from the spec: the flag bit values live in headers that are not
under src; only distinctness of the bits matters to the claims. -/
def GUI_FLAG_FOCUS : Nat := 1

/-- Modelled from the spec: active (pressed) flag bit. -/
def GUI_FLAG_ACTIVE : Nat := 2

/-- Modelled from the spec: hidden flag bit. -/
def GUI_FLAG_HIDDEN : Nat := 4

/-- Modelled from the spec: x position is percent of parent inner width. -/
def GUI_FLAG_XPOS_PERCENT : Nat := 8

/-- Modelled from the spec: y position is percent of parent inner height. -/
def GUI_FLAG_YPOS_PERCENT : Nat := 16

/-- Modelled from the spec: width is percent of parent inner width. -/
def GUI_FLAG_WIDTH_PERCENT : Nat := 32

/-- Modelled from the spec: height is percent of parent inner height. -/
def GUI_FLAG_HEIGHT_PERCENT : Nat := 64

/-- Modelled from the spec: widget is expanded over the parent inner area. -/
def GUI_FLAG_EXPANDED : Nat := 128

/-- Modelled from the spec: the value of the GUI_COLOR_BLACK constant is in a
drawing header not under src; the claims only use it as a fixed default. -/
def GUI_COLOR_BLACK : Nat := 0xFF000000

/-- LCD (display root surface) dimensions, the GUI.lcd fields read by the
header macros at lines 437, 446, 457 and 468. -/
structure gui_lcd_t where
  width : Int
  height : Int

/-- Widget descriptor gui_widget_t: shared immutable data of one widget kind
(default flags, default color table, default callback).  Modelled from the
spec: the struct layout is in a header not under src; the fields are the ones
the header macros dereference (widget->flags, widget->colors,
widget->callback).  Callback commands, parameter blocks and result blocks
are opaque to the core and embedded as plain numbers; a color table is a
total lookup, C arrays being indexed here only through a uint8_t cast. -/
structure gui_widget_t where
  flags : Nat
  colors : Option (Nat → Nat)
  callback : Nat → Nat → Nat → Bool

/-- Per-instance widget fields dereferenced by the header macros
(footprint, x, y, width, height, padding, flags, colors, callback, widget,
zindex).  Modelled from the spec: the struct layout itself is in a header
not under src. -/
structure WidgetData where
  footprint : Nat
  x : Int
  y : Int
  width : Int
  height : Int
  padtop : Int
  padright : Int
  padbottom : Int
  padleft : Int
  flags : Nat
  colors : Option (Nat → Nat)
  callback : Option (Nat → Nat → Nat → Bool)
  widget : gui_widget_t
  zindex : Int

/-- A live widget object: either the root (parent pointer NULL) or a child
of another widget.  A C handle is an Option of this type, none embedding
NULL. -/
inductive gui_handle : Type where
  | root (d : WidgetData)
  | child (d : WidgetData) (parent : gui_handle)

/-- Field access through a (non-NULL) handle. -/
def gui_handle.data : gui_handle → WidgetData
  | .root d => d
  | .child d _ => d

/-- The parent pointer stored in the widget. -/
def gui_handle.par : gui_handle → Option gui_handle
  | .root _ => none
  | .child _ p => some p

/-- Macro guii_widget_iswidget (header line 300):
h != NULL && h->footprint == GUI_WIDGET_FOOTPRINT, with C short-circuit
evaluation, so a NULL handle is never dereferenced. -/
def guii_widget_iswidget : Option gui_handle → Bool
  | none => false
  | some h => h.data.footprint == GUI_WIDGET_FOOTPRINT

/-- Macro guii_widget_getparent (header line 378):
h != NULL ? h->parent : NULL. -/
def guii_widget_getparent : Option gui_handle → Option gui_handle
  | none => none
  | some h => h.par

/-- Macro guii_widget_hasparent (header line 387):
h != NULL && h->parent != NULL. -/
def guii_widget_hasparent : Option gui_handle → Bool
  | none => false
  | some h => h.par.isSome

/-- Macro guii_widget_getflag (header line 332): h->flags & flag. -/
def guii_widget_getflag (h : gui_handle) (flag : Nat) : Nat :=
  h.data.flags &&& flag

/-- Macro guii_widget_getcoreflag (header line 342):
h->widget->flags & flag. -/
def guii_widget_getcoreflag (h : gui_handle) (flag : Nat) : Nat :=
  h.data.widget.flags &&& flag

/-- Modelled from the spec: the body of gui_widget_isexpanded is not under
src; per the spec the expanded state is a widget flag. -/
def gui_widget_isexpanded (h : gui_handle) : Bool :=
  (guii_widget_getflag h GUI_FLAG_EXPANDED) != 0

/-- Modelled from the spec: the GUI_ROUND macro is defined in a header not
under src; the spec fixes the policy round-half-away-from-zero.  In the
header's percent expressions GUI_ROUND is applied to the float product
x * parentInner, whose value is an exact integer on this embedding's scope,
and round-half-away-from-zero of an integer is that integer. -/
def GUI_ROUND (m : Int) : Int := m

/-- Modelled from the spec: "pixel = round(percent * parentInnerDimension
/ 100)" with round-half-away-from-zero, as an exact integer operation:
round-half-away-from-zero of m / d for d > 0. -/
def roundHalfAwayDiv (m d : Int) : Int :=
  if 0 ≤ m then (2 * m + d) / (2 * d) else -((2 * (-m) + d) / (2 * d))

/-- Modelled from the spec: the padding accessor bodies
(gui_widget_getpaddingtop and friends, header lines 693-696) are not under
src; they return the widget's stored padding. -/
def gui_widget_getpaddingtop (h : gui_handle) : Int := h.data.padtop

/-- Modelled from the spec: stored right padding accessor. -/
def gui_widget_getpaddingright (h : gui_handle) : Int := h.data.padright

/-- Modelled from the spec: stored bottom padding accessor. -/
def gui_widget_getpaddingbottom (h : gui_handle) : Int := h.data.padbottom

/-- Modelled from the spec: stored left padding accessor. -/
def gui_widget_getpaddingleft (h : gui_handle) : Int := h.data.padleft

/-- Modelled from the spec (§4.2): the body of gui_widget_getwidth is not
under src.  The resolved width of a widget: an expanded widget takes the
parent's full inner width; a percent-flagged width resolves against the
parent inner width (the LCD width at the root) with the spec's rounding;
otherwise the stored width in pixels.  The parent inner width is the
parent's resolved width minus its left and right padding, exactly the
quantity computed by the header macro guii_widget_getparentinnerwidth. -/
def gui_widget_getwidth (lcd : gui_lcd_t) : gui_handle → Int
  | .root d =>
    if (d.flags &&& GUI_FLAG_EXPANDED) != 0 then lcd.width
    else if (d.flags &&& GUI_FLAG_WIDTH_PERCENT) != 0 then
      roundHalfAwayDiv (d.width * lcd.width) 100
    else d.width
  | .child d p =>
    let pinner : Int := gui_widget_getwidth lcd p -
      (gui_widget_getpaddingleft p + gui_widget_getpaddingright p)
    if (d.flags &&& GUI_FLAG_EXPANDED) != 0 then pinner
    else if (d.flags &&& GUI_FLAG_WIDTH_PERCENT) != 0 then
      roundHalfAwayDiv (d.width * pinner) 100
    else d.width

/-- Modelled from the spec (§4.2): the body of gui_widget_getheight is not
under src; the vertical mirror of gui_widget_getwidth. -/
def gui_widget_getheight (lcd : gui_lcd_t) : gui_handle → Int
  | .root d =>
    if (d.flags &&& GUI_FLAG_EXPANDED) != 0 then lcd.height
    else if (d.flags &&& GUI_FLAG_HEIGHT_PERCENT) != 0 then
      roundHalfAwayDiv (d.height * lcd.height) 100
    else d.height
  | .child d p =>
    let pinner : Int := gui_widget_getheight lcd p -
      (gui_widget_getpaddingtop p + gui_widget_getpaddingbottom p)
    if (d.flags &&& GUI_FLAG_EXPANDED) != 0 then pinner
    else if (d.flags &&& GUI_FLAG_HEIGHT_PERCENT) != 0 then
      roundHalfAwayDiv (d.height * pinner) 100
    else d.height

/-- Macro guii_widget_getinnerwidth (header line 419): total width minus
left and right padding. -/
def guii_widget_getinnerwidth (lcd : gui_lcd_t) (h : gui_handle) : Int :=
  gui_widget_getwidth lcd h -
    (gui_widget_getpaddingleft h + gui_widget_getpaddingright h)

/-- Macro guii_widget_getinnerheight (header line 428): total height minus
top and bottom padding. -/
def guii_widget_getinnerheight (lcd : gui_lcd_t) (h : gui_handle) : Int :=
  gui_widget_getheight lcd h -
    (gui_widget_getpaddingtop h + gui_widget_getpaddingbottom h)

/-- Macro guii_widget_getparentwidth (header line 437): parent's width, or
the LCD width when there is no parent. -/
def guii_widget_getparentwidth (lcd : gui_lcd_t) (h : gui_handle) : Int :=
  match guii_widget_getparent (some h) with
  | some p => gui_widget_getwidth lcd p
  | none => lcd.width

/-- Macro guii_widget_getparentheight (header line 446): parent's height, or
the LCD height when there is no parent. -/
def guii_widget_getparentheight (lcd : gui_lcd_t) (h : gui_handle) : Int :=
  match guii_widget_getparent (some h) with
  | some p => gui_widget_getheight lcd p
  | none => lcd.height

/-- Macro guii_widget_getparentinnerwidth (header line 457): parent's inner
width, or the LCD width when there is no parent. -/
def guii_widget_getparentinnerwidth (lcd : gui_lcd_t) (h : gui_handle) : Int :=
  match guii_widget_getparent (some h) with
  | some p => guii_widget_getinnerwidth lcd p
  | none => lcd.width

/-- Macro guii_widget_getparentinnerheight (header line 468): parent's inner
height, or the LCD height when there is no parent. -/
def guii_widget_getparentinnerheight (lcd : gui_lcd_t) (h : gui_handle) : Int :=
  match guii_widget_getparent (some h) with
  | some p => guii_widget_getinnerheight lcd p
  | none => lcd.height

/-- Macro guii_widget_getrelativex (header lines 309-311): 0 when expanded;
otherwise, when the x position is percent-flagged,
(gui_dim_t)((float)GUI_ROUND(h->x * parentInnerWidth) / 100.0f) - note that
GUI_ROUND is applied to the product and the division's result is truncated
by the cast - and otherwise the stored x. -/
def guii_widget_getrelativex (lcd : gui_lcd_t) (h : gui_handle) : Int :=
  if gui_widget_isexpanded h then 0
  else if (guii_widget_getflag h GUI_FLAG_XPOS_PERCENT) != 0 then
    Int.tdiv (GUI_ROUND (h.data.x * guii_widget_getparentinnerwidth lcd h)) 100
  else h.data.x

/-- Macro guii_widget_getrelativey (header lines 320-322): the vertical
mirror of guii_widget_getrelativex. -/
def guii_widget_getrelativey (lcd : gui_lcd_t) (h : gui_handle) : Int :=
  if gui_widget_isexpanded h then 0
  else if (guii_widget_getflag h GUI_FLAG_YPOS_PERCENT) != 0 then
    Int.tdiv (GUI_ROUND (h.data.y * guii_widget_getparentinnerheight lcd h)) 100
  else h.data.y

/-- Spec-stated percent resolution, written from the spec's words for
refinement comparison with the header's percent expressions:
pixel = round(percent * parentInnerDimension / 100) with
round-half-away-from-zero. -/
def spec_percent_pixel (percent inner : Int) : Int :=
  roundHalfAwayDiv (percent * inner) 100

/-- Macro guii_widget_callback (header line 399):
h->callback != NULL ? h->callback(h, cmd, param, result)
                    : h->widget->callback(h, cmd, param, result). -/
def guii_widget_callback (h : gui_handle) (cmd param result : Nat) : Bool :=
  match h.data.callback with
  | some cb => cb cmd param result
  | none => h.data.widget.callback cmd param result

/-- Macro guii_widget_getcolor (header line 410):
h->colors != NULL ? h->colors[(uint8_t)index]
  : (h->widget->colors != NULL ? h->widget->colors[(uint8_t)index]
                               : GUI_COLOR_BLACK).
The uint8_t cast of the index is the mod 256. -/
def guii_widget_getcolor (h : gui_handle) (index : Nat) : Nat :=
  match h.data.colors with
  | some t => t (index % 256)
  | none =>
    match h.data.widget.colors with
    | some t => t (index % 256)
    | none => GUI_COLOR_BLACK

/-- Modelled from the spec (§7a): the bodies of the public gui_widget_*
operations are not under src; each is specified to validate its handle with
the footprint check first and to be a failure-returning no-op when the check
fails.  The state type and the operation's body on a valid widget are
abstract; the guard is the header's guii_widget_iswidget. -/
def guardedOp {σ : Type} (body : gui_handle → σ → σ × Bool)
    (h : Option gui_handle) (s : σ) : σ × Bool :=
  match h with
  | none => (s, false)
  | some w =>
    if guii_widget_iswidget (some w) then body w s else (s, false)

/-- The C string terminator. -/
def NUL : Char := Char.ofNat 0

/-- Modelled from the spec (§4.7 and scenario 4): the body of
gui_widget_settext is not under src.  Writing into an owned text buffer of
capacity cap stores the text truncated to cap - 1 units followed by the
terminator, and reports success.  The result is the buffer contents paired
with the success flag. -/
def gui_widget_settext (cap : Nat) (text : List Char) : List Char × Bool :=
  (text.take (cap - 1) ++ [NUL], true)

/-- Modelled from the spec (§4.3): the clipping evaluator's body is not
under src.  Rectangles are half-open on the right and bottom. -/
structure GuiRect where
  x1 : Int
  y1 : Int
  x2 : Int
  y2 : Int
deriving DecidableEq

/-- A point lies in a rectangle. -/
def GuiRect.memPt (r : GuiRect) (px py : Int) : Prop :=
  r.x1 ≤ px ∧ px < r.x2 ∧ r.y1 ≤ py ∧ py < r.y2

instance (r : GuiRect) (px py : Int) : Decidable (r.memPt px py) :=
  inferInstanceAs (Decidable (_ ∧ _ ∧ _ ∧ _))

/-- Rectangle intersection. -/
def GuiRect.inter (a b : GuiRect) : GuiRect :=
  ⟨max a.x1 b.x1, max a.y1 b.y1, min a.x2 b.x2, min a.y2 b.y2⟩

/-- Rectangle containment, pointwise. -/
def GuiRect.subsetR (a b : GuiRect) : Prop :=
  ∀ px py : Int, a.memPt px py → b.memPt px py

/-- Modelled from the spec: the body of guii_widget_getabsolutex (declared
at header line 547) is not under src.  A child's coordinate system sits at
its parent's inner (padded) top-left corner. -/
def guii_widget_getabsolutex (lcd : gui_lcd_t) : gui_handle → Int
  | .root d => guii_widget_getrelativex lcd (.root d)
  | .child d p =>
    guii_widget_getabsolutex lcd p + gui_widget_getpaddingleft p +
      guii_widget_getrelativex lcd (.child d p)

/-- Modelled from the spec: vertical mirror of guii_widget_getabsolutex. -/
def guii_widget_getabsolutey (lcd : gui_lcd_t) : gui_handle → Int
  | .root d => guii_widget_getrelativey lcd (.root d)
  | .child d p =>
    guii_widget_getabsolutey lcd p + gui_widget_getpaddingtop p +
      guii_widget_getrelativey lcd (.child d p)

/-- A widget's absolute geometry as a rectangle. -/
def widgetAbsRect (lcd : gui_lcd_t) (h : gui_handle) : GuiRect :=
  ⟨guii_widget_getabsolutex lcd h,
   guii_widget_getabsolutey lcd h,
   guii_widget_getabsolutex lcd h + gui_widget_getwidth lcd h,
   guii_widget_getabsolutey lcd h + gui_widget_getheight lcd h⟩

/-- The display's root surface as a rectangle. -/
def screenRect (lcd : gui_lcd_t) : GuiRect :=
  ⟨0, 0, lcd.width, lcd.height⟩

/-- Modelled from the spec (§4.3): the visible paintable rectangle of a
widget is the intersection of its absolute geometry with its parent's
visible paintable rectangle (with the display surface at the root).  The
further reduction by higher z-order siblings, applied only when a sibling
cover check is requested, only shrinks this rectangle and is immaterial to
the containment claims. -/
def widgetClipRect (lcd : gui_lcd_t) : gui_handle → GuiRect
  | .root d => (widgetAbsRect lcd (.root d)).inter (screenRect lcd)
  | .child d p => (widgetAbsRect lcd (.child d p)).inter (widgetClipRect lcd p)

/-- Modelled from the spec: a widget's inner rectangle, its absolute
geometry shrunk by its own padding on each edge. -/
def widgetInnerRect (lcd : gui_lcd_t) (h : gui_handle) : GuiRect :=
  ⟨guii_widget_getabsolutex lcd h + gui_widget_getpaddingleft h,
   guii_widget_getabsolutey lcd h + gui_widget_getpaddingtop h,
   guii_widget_getabsolutex lcd h + gui_widget_getwidth lcd h -
     gui_widget_getpaddingright h,
   guii_widget_getabsolutey lcd h + gui_widget_getheight lcd h -
     gui_widget_getpaddingbottom h⟩

/-- Modelled from the spec (§4.5): focus and active are the only widget
state the focus manager touches, so its state machine is embedded on its
own.  One arena entry: the widget's address (id) and its two flag bits. -/
structure FWidget where
  id : Nat
  focus : Bool
  active : Bool

/-- Modelled from the spec (§4.5, §9): process-wide focus/active state;
the arena of live widgets plus the two singleton back-references. -/
structure GuiCoreState where
  widgets : List FWidget
  focusedref : Option Nat
  activeref : Option Nat

/-- The state after GUI_Init: no widgets, no focus, no active widget. -/
def initState : GuiCoreState := ⟨[], none, none⟩

/-- A fresh arena address, larger than every live widget's address. -/
def freshid (s : GuiCoreState) : Nat :=
  (s.widgets.map FWidget.id).foldr (fun a b => max a b) 0 + 1

/-- Modelled from the spec (§4.1): widget creation allocates a fresh arena
entry; a new widget is neither focused nor active. -/
def guii_widget_create (s : GuiCoreState) : GuiCoreState :=
  ⟨⟨freshid s, false, false⟩ :: s.widgets, s.focusedref, s.activeref⟩

/-- Modelled from the spec (§4.5): the body of guii_widget_focus_set
(declared at header line 728) is not under src.  Setting focus on the
already-focused widget is a no-op; otherwise the previous holder's flag is
cleared, the target's flag is set and the singleton reference updated. -/
def guii_widget_focus_set (s : GuiCoreState) (h : Nat) : GuiCoreState :=
  if s.focusedref = some h then s
  else ⟨s.widgets.map fun w => ⟨w.id, w.id == h, w.active⟩,
        some h, s.activeref⟩

/-- Modelled from the spec (§4.5): the body of guii_widget_focus_clear
(declared at header line 727) is not under src.  The holder's flag is
cleared and the singleton reference emptied. -/
def guii_widget_focus_clear (s : GuiCoreState) : GuiCoreState :=
  ⟨s.widgets.map fun w =>
      ⟨w.id, if s.focusedref = some w.id then false else w.focus, w.active⟩,
   none, s.activeref⟩

/-- Modelled from the spec (§4.5): guii_widget_active_set (declared at
header line 730), the active mirror of guii_widget_focus_set. -/
def guii_widget_active_set (s : GuiCoreState) (h : Nat) : GuiCoreState :=
  if s.activeref = some h then s
  else ⟨s.widgets.map fun w => ⟨w.id, w.focus, w.id == h⟩,
        s.focusedref, some h⟩

/-- Modelled from the spec (§4.5): guii_widget_active_clear (declared at
header line 729), the active mirror of guii_widget_focus_clear. -/
def guii_widget_active_clear (s : GuiCoreState) : GuiCoreState :=
  ⟨s.widgets.map fun w =>
      ⟨w.id, w.focus, if s.activeref = some w.id then false else w.active⟩,
   s.focusedref, none⟩

/-- Modelled from the spec (§4.1, §4.5): removal unlinks the widget and
transitions a singleton that referenced it to none. -/
def gui_widget_remove (s : GuiCoreState) (h : Nat) : GuiCoreState :=
  ⟨s.widgets.filter fun w => w.id != h,
   if s.focusedref = some h then none else s.focusedref,
   if s.activeref = some h then none else s.activeref⟩

/-- States of the focus/active manager reachable from the initial state by
the widget-core transitions. -/
inductive Reach : GuiCoreState → Prop where
  | init : Reach initState
  | create (s : GuiCoreState) : Reach s → Reach (guii_widget_create s)
  | fset (s : GuiCoreState) (h : Nat) : Reach s → Reach (guii_widget_focus_set s h)
  | fclear (s : GuiCoreState) : Reach s → Reach (guii_widget_focus_clear s)
  | aset (s : GuiCoreState) (h : Nat) : Reach s → Reach (guii_widget_active_set s h)
  | aclear (s : GuiCoreState) : Reach s → Reach (guii_widget_active_clear s)
  | remove (s : GuiCoreState) (h : Nat) : Reach s → Reach (gui_widget_remove s h)

/-- The number of widgets whose focus flag is set. -/
def focusCount (s : GuiCoreState) : Nat :=
  s.widgets.countP fun w => w.focus

/-- The number of widgets whose active flag is set. -/
def activeCount (s : GuiCoreState) : Nat :=
  s.widgets.countP fun w => w.active

/-- Arena well-formedness: live widget addresses are pairwise distinct. -/
def idsNodup (s : GuiCoreState) : Prop :=
  (s.widgets.map FWidget.id).Nodup

/-- A descriptor whose default callback handles nothing, used by the
concrete example widgets below. -/
def defaultDesc : gui_widget_t := ⟨0, none, fun _ _ _ => false⟩

/-- Display of the example board: 480 x 272. -/
def lcdC : gui_lcd_t := ⟨480, 272⟩

/-- Concrete parent for the percent scenarios: a root widget of width 201,
height 100, no padding, no flags. -/
def cexParent : gui_handle :=
  .root ⟨GUI_WIDGET_FOOTPRINT, 0, 0, 201, 100, 0, 0, 0, 0, 0,
         none, none, defaultDesc, 0⟩

/-- Fields of the percent-scenario widget: x = 50, percent-flagged. -/
def cexPercentXData : WidgetData :=
  ⟨GUI_WIDGET_FOOTPRINT, 50, 0, 10, 10, 0, 0, 0, 0,
   GUI_FLAG_XPOS_PERCENT, none, none, defaultDesc, 0⟩

/-- Concrete widget for the percent scenario: x = 50 percent-flagged under
cexParent (parent inner width 201). -/
def cexPercentX : gui_handle := .child cexPercentXData cexParent

/-- Fields of the expanded example widget: arbitrary stored geometry. -/
def cexExpandedData : WidgetData :=
  ⟨GUI_WIDGET_FOOTPRINT, 7, 8, 9, 13, 0, 0, 0, 0,
   GUI_FLAG_EXPANDED, none, none, defaultDesc, 0⟩

/-- Concrete expanded widget under cexParent with arbitrary stored
geometry. -/
def cexExpanded : gui_handle := .child cexExpandedData cexParent

/-- Concrete clipping parent: root at (0,0), 100 x 100, padding 10 on every
edge. -/
def cexClipParent : gui_handle :=
  .root ⟨GUI_WIDGET_FOOTPRINT, 0, 0, 100, 100, 10, 10, 10, 10, 0,
         none, none, defaultDesc, 0⟩

/-- Fields of the clipping-scenario child widget. -/
def cexClipChildData : WidgetData :=
  ⟨GUI_WIDGET_FOOTPRINT, 0, 0, 100, 100, 0, 0, 0, 0, 0,
   none, none, defaultDesc, 0⟩

/-- Concrete clipping child: relative (0,0), 100 x 100 under cexClipParent,
overflowing the parent's inner area on the right and bottom. -/
def cexClipChild : gui_handle := .child cexClipChildData cexClipParent

/-- A stale handle: the footprint slot does not hold the footprint value. -/
def cexStale : gui_handle :=
  .root ⟨0xDEAD, 0, 0, 10, 10, 0, 0, 0, 0, 0, none, none, defaultDesc, 0⟩

/-- An example operation body for the guard theorem: mutates the state and
reports success. -/
def exampleBody : gui_handle → Nat → Nat × Bool := fun _ s => (s + 1, true)

/-- An instance-level callback override used by the dispatch examples. -/
def cbOverride : Nat → Nat → Nat → Bool := fun cmd _ _ => cmd == 7

/-- A descriptor whose default callback handles everything. -/
def descHandlesAll : gui_widget_t := ⟨0, none, fun _ _ _ => true⟩

/-- Widget with an instance-level callback override. -/
def cexCbOverride : gui_handle :=
  .root ⟨GUI_WIDGET_FOOTPRINT, 0, 0, 10, 10, 0, 0, 0, 0, 0,
         none, some cbOverride, descHandlesAll, 0⟩

/-- Widget without an instance-level callback override. -/
def cexCbDefault : gui_handle :=
  .root ⟨GUI_WIDGET_FOOTPRINT, 0, 0, 10, 10, 0, 0, 0, 0, 0,
         none, none, descHandlesAll, 0⟩

/-- Instance color table of the color examples. -/
def instColors : Nat → Nat := fun i => i + 1000

/-- Descriptor color table of the color examples. -/
def descColors : Nat → Nat := fun i => i + 2000

/-- Descriptor carrying a default color table. -/
def descWithColors : gui_widget_t := ⟨0, some descColors, fun _ _ _ => false⟩

/-- Widget with a per-instance color table. -/
def cexColorInst : gui_handle :=
  .root ⟨GUI_WIDGET_FOOTPRINT, 0, 0, 10, 10, 0, 0, 0, 0, 0,
         some instColors, none, descWithColors, 0⟩

/-- Widget whose colors come from the descriptor table. -/
def cexColorDesc : gui_handle :=
  .root ⟨GUI_WIDGET_FOOTPRINT, 0, 0, 10, 10, 0, 0, 0, 0, 0,
         none, none, descWithColors, 0⟩

/-- Widget with neither a per-instance nor a descriptor color table. -/
def cexColorNone : gui_handle :=
  .root ⟨GUI_WIDGET_FOOTPRINT, 0, 0, 10, 10, 0, 0, 0, 0, 0,
         none, none, defaultDesc, 0⟩

/-- Membership in an intersection of rectangles is membership in both. -/
theorem memPt_inter (a b : GuiRect) (px py : Int) :
    (a.inter b).memPt px py ↔ a.memPt px py ∧ b.memPt px py := by
  simp only [GuiRect.inter, GuiRect.memPt, max_le_iff, lt_min_iff]
  tauto

/-- C10: the handle-validity and parent-navigation macros are total on NULL:
guii_widget_iswidget(NULL) is 0, guii_widget_getparent(NULL) is NULL and
guii_widget_hasparent(NULL) is 0; each macro tests the handle against NULL
before any field access (C short-circuit and ternary), so NULL is never
dereferenced - in the embedding, the none branch touches no widget field. -/
theorem null_handle_total :
    guii_widget_iswidget none = false ∧
    guii_widget_getparent none = none ∧
    guii_widget_hasparent none = false :=
  ⟨rfl, rfl, rfl⟩

/-- C4: a widget-core operation given a handle that fails the footprint
check (NULL, or footprint different from 0x00ACCE55) leaves the state
unchanged and returns the failure flag, for every operation body and every
state; the body - hence any dereference of the handle - is never reached. -/
theorem invalid_handle_guarded_noop {σ : Type} (body : gui_handle → σ → σ × Bool)
    (h : Option gui_handle) (s : σ)
    (hbad : guii_widget_iswidget h = false) :
    guardedOp body h s = (s, false) := by
  cases h with
  | none => rfl
  | some w => simp [guardedOp, hbad]

/-- C4 witness: the guard fires on a stale handle and on NULL. -/
theorem invalid_handle_guarded_noop_witness :
    guii_widget_iswidget (some cexStale) = false ∧
    guardedOp exampleBody (some cexStale) 0 = (0, false) ∧
    guardedOp exampleBody none 0 = (0, false) :=
  ⟨by decide,
   invalid_handle_guarded_noop exampleBody (some cexStale) 0 (by decide),
   invalid_handle_guarded_noop exampleBody none 0 (by decide)⟩

/-- C2: dispatching a callback invokes the instance-level override when it
is non-null and otherwise the descriptor's default callback - exactly one of
the two, in that precedence order, for every handle, command, parameter and
result block. -/
theorem callback_dispatch_precedence (h : gui_handle) (cmd param result : Nat)
    (cb : Nat → Nat → Nat → Bool) :
    (h.data.callback = some cb →
      guii_widget_callback h cmd param result = cb cmd param result) ∧
    (h.data.callback = none →
      guii_widget_callback h cmd param result =
        h.data.widget.callback cmd param result) := by
  constructor <;> intro he <;> simp [guii_widget_callback, he]

/-- C2 witness: one widget with an override and one without. -/
theorem callback_dispatch_precedence_witness :
    guii_widget_callback cexCbOverride 7 1 2 = cbOverride 7 1 2 ∧
    guii_widget_callback cexCbDefault 7 1 2 =
      cexCbDefault.data.widget.callback 7 1 2 :=
  ⟨(callback_dispatch_precedence cexCbOverride 7 1 2 cbOverride).1 rfl,
   (callback_dispatch_precedence cexCbDefault 7 1 2 cbOverride).2 rfl⟩

/-- C9: for a color index in the uint8_t range, the color lookup returns the
per-instance table entry when that table is non-null, otherwise the
descriptor table entry when that is non-null, and otherwise the constant
GUI_COLOR_BLACK - it is total even when neither table exists. -/
theorem getcolor_precedence (h : gui_handle) (i : Nat) (t : Nat → Nat)
    (hi : i < 256) :
    (h.data.colors = some t → guii_widget_getcolor h i = t i) ∧
    (h.data.colors = none → h.data.widget.colors = some t →
      guii_widget_getcolor h i = t i) ∧
    (h.data.colors = none → h.data.widget.colors = none →
      guii_widget_getcolor h i = GUI_COLOR_BLACK) := by
  have hmod : i % 256 = i := Nat.mod_eq_of_lt hi
  refine ⟨fun h1 => ?_, fun h1 h2 => ?_, fun h1 h2 => ?_⟩
  · simp [guii_widget_getcolor, h1, hmod]
  · simp [guii_widget_getcolor, h1, h2, hmod]
  · simp [guii_widget_getcolor, h1, h2]

/-- C9 witness: the three precedence levels at index 3. -/
theorem getcolor_precedence_witness :
    3 < 256 ∧
    guii_widget_getcolor cexColorInst 3 = instColors 3 ∧
    guii_widget_getcolor cexColorDesc 3 = descColors 3 ∧
    guii_widget_getcolor cexColorNone 3 = GUI_COLOR_BLACK :=
  ⟨by decide,
   (getcolor_precedence cexColorInst 3 instColors (by decide)).1 rfl,
   (getcolor_precedence cexColorDesc 3 descColors (by decide)).2.1 rfl rfl,
   (getcolor_precedence cexColorNone 3 descColors (by decide)).2.2 rfl rfl⟩

/-- C8: writing a string at least as long as the owned buffer's capacity
stores the input truncated to capacity - 1 units followed by the terminator,
fills exactly the capacity (no overrun), ends in the terminator, and still
reports success. -/
theorem settext_truncates_terminated (cap : Nat) (text : List Char)
    (hcap : 1 ≤ cap) (hlong : cap ≤ text.length) :
    (gui_widget_settext cap text).2 = true ∧
    (gui_widget_settext cap text).1 = text.take (cap - 1) ++ [NUL] ∧
    (gui_widget_settext cap text).1.length = cap ∧
    (gui_widget_settext cap text).1.getLast? = some NUL := by
  refine ⟨rfl, rfl, ?_, ?_⟩
  · simp only [gui_widget_settext, List.length_append, List.length_take,
      List.length_cons, List.length_nil]
    omega
  · simp only [gui_widget_settext]
    exact List.getLast?_concat _

/-- C8 witness: scenario 4 - capacity 5, input "ABCDEFG", stored "ABCD"
plus terminator, success flag true. -/
theorem settext_truncates_terminated_witness :
    (gui_widget_settext 5 "ABCDEFG".toList).1 = "ABCD".toList ++ [NUL] ∧
    (gui_widget_settext 5 "ABCDEFG".toList).2 = true ∧
    (gui_widget_settext 5 "ABCDEFG".toList).1.length = 5 :=
  ⟨by decide,
   (settext_truncates_terminated 5 "ABCDEFG".toList (by decide) (by decide)).1,
   (settext_truncates_terminated 5 "ABCDEFG".toList (by decide) (by decide)).2.2.1⟩

/-- C7: the parent inner dimension used for percent resolution is the
parent's resolved width (resp. height) minus its left+right (resp.
top+bottom) padding when a parent exists, and the LCD width (resp. height)
otherwise. -/
theorem parent_inner_dimension_spec (lcd : gui_lcd_t) (h : gui_handle) :
    (∀ d p, h = gui_handle.child d p →
      guii_widget_getparentinnerwidth lcd h =
        gui_widget_getwidth lcd p -
          (gui_widget_getpaddingleft p + gui_widget_getpaddingright p) ∧
      guii_widget_getparentinnerheight lcd h =
        gui_widget_getheight lcd p -
          (gui_widget_getpaddingtop p + gui_widget_getpaddingbottom p)) ∧
    (∀ d, h = gui_handle.root d →
      guii_widget_getparentinnerwidth lcd h = lcd.width ∧
      guii_widget_getparentinnerheight lcd h = lcd.height) := by
  constructor
  · intro d p hdp
    subst hdp
    exact ⟨rfl, rfl⟩
  · intro d hd
    subst hd
    exact ⟨rfl, rfl⟩

/-- C7 witness: a widget with a parent and a root widget. -/
theorem parent_inner_dimension_spec_witness :
    guii_widget_getparentinnerwidth lcdC cexPercentX =
      gui_widget_getwidth lcdC cexParent -
        (gui_widget_getpaddingleft cexParent +
          gui_widget_getpaddingright cexParent) ∧
    guii_widget_getparentinnerwidth lcdC cexParent = lcdC.width :=
  ⟨((parent_inner_dimension_spec lcdC cexPercentX).1
      cexPercentXData cexParent rfl).1,
   ((parent_inner_dimension_spec lcdC cexParent).2
      ⟨GUI_WIDGET_FOOTPRINT, 0, 0, 201, 100, 0, 0, 0, 0, 0,
       none, none, defaultDesc, 0⟩ rfl).1⟩

/-- An expanded widget's resolved width is the parent inner width. -/
theorem getwidth_expanded_eq (lcd : gui_lcd_t) (h : gui_handle)
    (hexp : gui_widget_isexpanded h = true) :
    gui_widget_getwidth lcd h = guii_widget_getparentinnerwidth lcd h := by
  have hf : (h.data.flags &&& GUI_FLAG_EXPANDED) != 0 := by
    simpa [gui_widget_isexpanded, guii_widget_getflag] using hexp
  cases h with
  | root d =>
    simp only [gui_handle.data] at hf
    simp [gui_widget_getwidth, guii_widget_getparentinnerwidth,
      guii_widget_getparent, gui_handle.par, hf]
  | child d p =>
    simp only [gui_handle.data] at hf
    simp [gui_widget_getwidth, guii_widget_getparentinnerwidth,
      guii_widget_getparent, gui_handle.par, guii_widget_getinnerwidth, hf]

/-- An expanded widget's resolved height is the parent inner height. -/
theorem getheight_expanded_eq (lcd : gui_lcd_t) (h : gui_handle)
    (hexp : gui_widget_isexpanded h = true) :
    gui_widget_getheight lcd h = guii_widget_getparentinnerheight lcd h := by
  have hf : (h.data.flags &&& GUI_FLAG_EXPANDED) != 0 := by
    simpa [gui_widget_isexpanded, guii_widget_getflag] using hexp
  cases h with
  | root d =>
    simp only [gui_handle.data] at hf
    simp [gui_widget_getheight, guii_widget_getparentinnerheight,
      guii_widget_getparent, gui_handle.par, hf]
  | child d p =>
    simp only [gui_handle.data] at hf
    simp [gui_widget_getheight, guii_widget_getparentinnerheight,
      guii_widget_getparent, gui_handle.par, guii_widget_getinnerheight, hf]

/-- C6: an expanded widget resolves to relative position (0,0) and to the
parent's full inner area as its size, whatever its stored x, y, width and
height (the stored fields are universally quantified through h). -/
theorem expanded_resolves_to_parent_inner (lcd : gui_lcd_t) (h : gui_handle)
    (hexp : gui_widget_isexpanded h = true) :
    guii_widget_getrelativex lcd h = 0 ∧
    guii_widget_getrelativey lcd h = 0 ∧
    gui_widget_getwidth lcd h = guii_widget_getparentinnerwidth lcd h ∧
    gui_widget_getheight lcd h = guii_widget_getparentinnerheight lcd h :=
  ⟨by simp [guii_widget_getrelativex, hexp],
   by simp [guii_widget_getrelativey, hexp],
   getwidth_expanded_eq lcd h hexp,
   getheight_expanded_eq lcd h hexp⟩

/-- C6 witness: the expanded example widget, stored geometry (7,8,9,13),
resolves to (0,0) and its parent's inner area. -/
theorem expanded_resolves_to_parent_inner_witness :
    gui_widget_isexpanded cexExpanded = true ∧
    guii_widget_getrelativex lcdC cexExpanded = 0 ∧
    gui_widget_getwidth lcdC cexExpanded =
      guii_widget_getparentinnerwidth lcdC cexExpanded :=
  ⟨by decide,
   (expanded_resolves_to_parent_inner lcdC cexExpanded (by decide)).1,
   (expanded_resolves_to_parent_inner lcdC cexExpanded (by decide)).2.2.1⟩

/-- C1 counterexample: at x = 50 percent-flagged under a parent of inner
width 201, the header's percent expression returns 100, while the claimed
formula round-half-away-from-zero(50 * 201 / 100) returns 101: GUI_ROUND is
applied to the product, before the division, so the cast truncates the
quotient 100.5. -/
theorem percent_round_half_away_counterexample :
    guii_widget_getparentinnerwidth lcdC cexPercentX = 201 ∧
    cexPercentX.data.x = 50 ∧
    guii_widget_getrelativex lcdC cexPercentX = 100 ∧
    spec_percent_pixel 50 201 = 101 ∧
    guii_widget_getrelativex lcdC cexPercentX ≠
      spec_percent_pixel cexPercentX.data.x
        (guii_widget_getparentinnerwidth lcdC cexPercentX) :=
  ⟨by decide, by decide, by decide, by decide, by decide⟩

/-- C1 amended: for a non-expanded widget with a percent-flagged x position
and nonnegative percent and parent inner width, the resolver returns the
truncated quotient of percent * parentInnerWidth by 100 - characterized by
the two bounds 100 * pixel ≤ percent * parentInner < 100 * pixel + 100 -
rather than the round-half-away-from-zero value. -/
theorem getrelativex_percent_truncates (lcd : gui_lcd_t) (h : gui_handle)
    (hexp : gui_widget_isexpanded h = false)
    (hflag : (guii_widget_getflag h GUI_FLAG_XPOS_PERCENT) != 0)
    (hx : 0 ≤ h.data.x)
    (hpin : 0 ≤ guii_widget_getparentinnerwidth lcd h) :
    guii_widget_getrelativex lcd h =
      h.data.x * guii_widget_getparentinnerwidth lcd h / 100 ∧
    100 * guii_widget_getrelativex lcd h ≤
      h.data.x * guii_widget_getparentinnerwidth lcd h ∧
    h.data.x * guii_widget_getparentinnerwidth lcd h <
      100 * guii_widget_getrelativex lcd h + 100 := by
  have hrel : guii_widget_getrelativex lcd h =
      h.data.x * guii_widget_getparentinnerwidth lcd h / 100 := by
    simp only [guii_widget_getrelativex, hexp, Bool.false_eq_true, if_false,
      hflag, if_true, GUI_ROUND]
    exact Int.tdiv_eq_ediv (mul_nonneg hx hpin) (by norm_num)
  refine ⟨hrel, ?_, ?_⟩
  · rw [hrel, mul_comm]
    exact Int.ediv_mul_le _ (by norm_num)
  · rw [hrel]
    have hb := Int.lt_ediv_add_one_mul_self
      (h.data.x * guii_widget_getparentinnerwidth lcd h)
      (by norm_num : (0:Int) < 100)
    linarith [hb]

/-- C1 amended witness: the concrete percent widget - 50 percent of parent
inner width 201 resolves to 100. -/
theorem getrelativex_percent_truncates_witness :
    gui_widget_isexpanded cexPercentX = false ∧
    guii_widget_getrelativex lcdC cexPercentX =
      cexPercentX.data.x * guii_widget_getparentinnerwidth lcdC cexPercentX
        / 100 :=
  ⟨by decide,
   (getrelativex_percent_truncates lcdC cexPercentX
      (by decide) (by decide) (by decide) (by decide)).1⟩

/-- C3 counterexample: under the spec's clipping contract, the concrete
child (100 wide under a parent 100 wide with padding 10) has the point
(95,50) inside its clipped visible rectangle but outside the parent's inner
rectangle - containment in the parent's clipped rectangle holds, containment
in the parent's inner rectangle does not. -/
theorem clip_inner_containment_counterexample :
    cexClipChild.par = some cexClipParent ∧
    (widgetClipRect lcdC cexClipChild).memPt 95 50 ∧
    ¬ (widgetInnerRect lcdC cexClipParent).memPt 95 50 :=
  ⟨rfl, by decide, by decide⟩

/-- C3 amended: every point of a child's clipped visible rectangle lies in
the parent's clipped visible rectangle and hence in the parent's absolute
rectangle, at any tree depth and for every tree state - the clipped
rectangle of a child is by construction intersected with its parent's; the
parenthetical containment is in the parent's absolute rectangle, not its
inner (padded) rectangle. -/
theorem clip_subset_parent_clip (lcd : gui_lcd_t) (d : WidgetData)
    (p : gui_handle) (px py : Int)
    (hm : (widgetClipRect lcd (gui_handle.child d p)).memPt px py) :
    (widgetClipRect lcd p).memPt px py ∧
    (widgetAbsRect lcd p).memPt px py := by
  simp only [widgetClipRect] at hm
  have h2 : (widgetClipRect lcd p).memPt px py :=
    ((memPt_inter _ _ px py).mp hm).2
  refine ⟨h2, ?_⟩
  cases p with
  | root d0 =>
    simp only [widgetClipRect] at h2
    exact ((memPt_inter _ _ px py).mp h2).1
  | child d0 p0 =>
    simp only [widgetClipRect] at h2
    exact ((memPt_inter _ _ px py).mp h2).1

/-- C3 amended witness: the concrete clipping pair at the point (50,50). -/
theorem clip_subset_parent_clip_witness :
    (widgetClipRect lcdC cexClipChild).memPt 50 50 ∧
    (widgetClipRect lcdC cexClipParent).memPt 50 50 ∧
    (widgetAbsRect lcdC cexClipParent).memPt 50 50 :=
  ⟨by decide,
   (clip_subset_parent_clip lcdC cexClipChildData cexClipParent 50 50
      (by decide)).1,
   (clip_subset_parent_clip lcdC cexClipChildData cexClipParent 50 50
      (by decide)).2⟩

/-- Every element of a list of naturals is bounded by the folded maximum. -/
theorem le_foldr_max (l : List Nat) (x : Nat) (hx : x ∈ l) :
    x ≤ l.foldr (fun a b => max a b) 0 := by
  induction l with
  | nil => cases hx
  | cons a t ih =>
    rcases List.mem_cons.mp hx with rfl | hmem
    · exact le_max_left _ _
    · exact le_trans (ih hmem) (le_max_right _ _)

/-- A fresh arena address is not an address in use. -/
theorem freshid_not_mem (s : GuiCoreState) :
    freshid s ∉ s.widgets.map FWidget.id := by
  intro hmem
  have h1 := le_foldr_max _ _ hmem
  have h2 : freshid s =
      (s.widgets.map FWidget.id).foldr (fun a b => max a b) 0 + 1 := rfl
  omega

/-- A flag update that keeps addresses keeps the address list. -/
theorem map_id_update (l : List FWidget) (g : FWidget → FWidget)
    (hg : ∀ w, (g w).id = w.id) :
    (l.map g).map FWidget.id = l.map FWidget.id := by
  rw [List.map_map]
  exact List.map_congr_left fun a _ => hg a

/-- Counting widgets at one address through the address list. -/
theorem countP_id_eq_count (l : List FWidget) (h : Nat) :
    (l.countP fun w => w.id == h) = (l.map FWidget.id).count h := by
  rw [List.count_eq_countP, List.countP_map]
  rfl

/-- Creation preserves distinctness of addresses. -/
theorem idsNodup_create (s : GuiCoreState) (hn : idsNodup s) :
    idsNodup (guii_widget_create s) := by
  unfold idsNodup guii_widget_create
  rw [List.map_cons]
  exact List.nodup_cons.mpr ⟨freshid_not_mem s, hn⟩

/-- Setting focus preserves distinctness of addresses. -/
theorem idsNodup_fset (s : GuiCoreState) (h : Nat) (hn : idsNodup s) :
    idsNodup (guii_widget_focus_set s h) := by
  by_cases hif : s.focusedref = some h
  · simpa [guii_widget_focus_set, hif] using hn
  · unfold idsNodup guii_widget_focus_set
    rw [if_neg hif]
    show ((s.widgets.map fun w =>
      (⟨w.id, w.id == h, w.active⟩ : FWidget)).map FWidget.id).Nodup
    rw [map_id_update s.widgets
      (fun w => (⟨w.id, w.id == h, w.active⟩ : FWidget)) (fun w => rfl)]
    exact hn

/-- Clearing focus preserves distinctness of addresses. -/
theorem idsNodup_fclear (s : GuiCoreState) (hn : idsNodup s) :
    idsNodup (guii_widget_focus_clear s) := by
  unfold idsNodup guii_widget_focus_clear
  show ((s.widgets.map fun w =>
    (⟨w.id, if s.focusedref = some w.id then false else w.focus,
      w.active⟩ : FWidget)).map FWidget.id).Nodup
  rw [map_id_update s.widgets
    (fun w => (⟨w.id, if s.focusedref = some w.id then false else w.focus,
      w.active⟩ : FWidget)) (fun w => rfl)]
  exact hn

/-- Setting the active widget preserves distinctness of addresses. -/
theorem idsNodup_aset (s : GuiCoreState) (h : Nat) (hn : idsNodup s) :
    idsNodup (guii_widget_active_set s h) := by
  by_cases hif : s.activeref = some h
  · simpa [guii_widget_active_set, hif] using hn
  · unfold idsNodup guii_widget_active_set
    rw [if_neg hif]
    show ((s.widgets.map fun w =>
      (⟨w.id, w.focus, w.id == h⟩ : FWidget)).map FWidget.id).Nodup
    rw [map_id_update s.widgets
      (fun w => (⟨w.id, w.focus, w.id == h⟩ : FWidget)) (fun w => rfl)]
    exact hn

/-- Clearing the active widget preserves distinctness of addresses. -/
theorem idsNodup_aclear (s : GuiCoreState) (hn : idsNodup s) :
    idsNodup (guii_widget_active_clear s) := by
  unfold idsNodup guii_widget_active_clear
  show ((s.widgets.map fun w =>
    (⟨w.id, w.focus,
      if s.activeref = some w.id then false else w.active⟩ : FWidget)).map
        FWidget.id).Nodup
  rw [map_id_update s.widgets
    (fun w => (⟨w.id, w.focus,
      if s.activeref = some w.id then false else w.active⟩ : FWidget))
    (fun w => rfl)]
  exact hn

/-- Removal preserves distinctness of addresses. -/
theorem idsNodup_remove (s : GuiCoreState) (h : Nat) (hn : idsNodup s) :
    idsNodup (gui_widget_remove s h) := by
  unfold idsNodup gui_widget_remove
  exact List.Nodup.sublist ((List.filter_sublist _).map FWidget.id) hn

/-- Setting focus leaves at most one focused widget. -/
theorem focusCount_fset_le (s : GuiCoreState) (h : Nat)
    (hn : idsNodup s) (hc : focusCount s ≤ 1) :
    focusCount (guii_widget_focus_set s h) ≤ 1 := by
  by_cases hif : s.focusedref = some h
  · simpa [guii_widget_focus_set, hif] using hc
  · unfold focusCount guii_widget_focus_set
    rw [if_neg hif]
    show ((s.widgets.map fun w =>
      (⟨w.id, w.id == h, w.active⟩ : FWidget)).countP fun w => w.focus) ≤ 1
    rw [List.countP_map]
    show (s.widgets.countP fun w => w.id == h) ≤ 1
    rw [countP_id_eq_count]
    exact List.nodup_iff_count_le_one.mp hn h

/-- Setting focus does not change the number of active widgets. -/
theorem activeCount_fset_eq (s : GuiCoreState) (h : Nat) :
    activeCount (guii_widget_focus_set s h) = activeCount s := by
  by_cases hif : s.focusedref = some h
  · simp [guii_widget_focus_set, hif]
  · unfold activeCount guii_widget_focus_set
    rw [if_neg hif]
    show ((s.widgets.map fun w =>
        (⟨w.id, w.id == h, w.active⟩ : FWidget)).countP fun w => w.active) =
      s.widgets.countP fun w => w.active
    rw [List.countP_map]
    rfl

/-- Clearing focus can only lower the number of focused widgets. -/
theorem focusCount_fclear_le (s : GuiCoreState) (hc : focusCount s ≤ 1) :
    focusCount (guii_widget_focus_clear s) ≤ 1 := by
  unfold focusCount guii_widget_focus_clear
  show ((s.widgets.map fun w =>
    (⟨w.id, if s.focusedref = some w.id then false else w.focus,
      w.active⟩ : FWidget)).countP fun w => w.focus) ≤ 1
  rw [List.countP_map]
  refine le_trans (List.countP_mono_left ?_) hc
  intro w hw hpw
  by_cases hcond : s.focusedref = some w.id
  · simp [hcond] at hpw
  · simpa [hcond] using hpw

/-- Clearing focus does not change the number of active widgets. -/
theorem activeCount_fclear_eq (s : GuiCoreState) :
    activeCount (guii_widget_focus_clear s) = activeCount s := by
  unfold activeCount guii_widget_focus_clear
  show ((s.widgets.map fun w =>
      (⟨w.id, if s.focusedref = some w.id then false else w.focus,
        w.active⟩ : FWidget)).countP fun w => w.active) =
    s.widgets.countP fun w => w.active
  rw [List.countP_map]
  rfl

/-- Setting the active widget leaves at most one active widget. -/
theorem activeCount_aset_le (s : GuiCoreState) (h : Nat)
    (hn : idsNodup s) (hc : activeCount s ≤ 1) :
    activeCount (guii_widget_active_set s h) ≤ 1 := by
  by_cases hif : s.activeref = some h
  · simpa [guii_widget_active_set, hif] using hc
  · unfold activeCount guii_widget_active_set
    rw [if_neg hif]
    show ((s.widgets.map fun w =>
      (⟨w.id, w.focus, w.id == h⟩ : FWidget)).countP fun w => w.active) ≤ 1
    rw [List.countP_map]
    show (s.widgets.countP fun w => w.id == h) ≤ 1
    rw [countP_id_eq_count]
    exact List.nodup_iff_count_le_one.mp hn h

/-- Setting the active widget does not change the number of focused
widgets. -/
theorem focusCount_aset_eq (s : GuiCoreState) (h : Nat) :
    focusCount (guii_widget_active_set s h) = focusCount s := by
  by_cases hif : s.activeref = some h
  · simp [guii_widget_active_set, hif]
  · unfold focusCount guii_widget_active_set
    rw [if_neg hif]
    show ((s.widgets.map fun w =>
        (⟨w.id, w.focus, w.id == h⟩ : FWidget)).countP fun w => w.focus) =
      s.widgets.countP fun w => w.focus
    rw [List.countP_map]
    rfl

/-- Clearing the active widget can only lower the active count. -/
theorem activeCount_aclear_le (s : GuiCoreState) (hc : activeCount s ≤ 1) :
    activeCount (guii_widget_active_clear s) ≤ 1 := by
  unfold activeCount guii_widget_active_clear
  show ((s.widgets.map fun w =>
    (⟨w.id, w.focus,
      if s.activeref = some w.id then false else w.active⟩ : FWidget)).countP
        fun w => w.active) ≤ 1
  rw [List.countP_map]
  refine le_trans (List.countP_mono_left ?_) hc
  intro w hw hpw
  by_cases hcond : s.activeref = some w.id
  · simp [hcond] at hpw
  · simpa [hcond] using hpw

/-- Clearing the active widget does not change the focus count. -/
theorem focusCount_aclear_eq (s : GuiCoreState) :
    focusCount (guii_widget_active_clear s) = focusCount s := by
  unfold focusCount guii_widget_active_clear
  show ((s.widgets.map fun w =>
      (⟨w.id, w.focus,
        if s.activeref = some w.id then false else w.active⟩ : FWidget)).countP
      fun w => w.focus) =
    s.widgets.countP fun w => w.focus
  rw [List.countP_map]
  rfl

/-- A created widget is neither focused nor active, so creation changes
neither count. -/
theorem focusCount_create_le (s : GuiCoreState) (hc : focusCount s ≤ 1) :
    focusCount (guii_widget_create s) ≤ 1 := by
  unfold focusCount guii_widget_create
  rw [List.countP_cons]
  simpa using hc

/-- Creation does not add an active widget. -/
theorem activeCount_create_le (s : GuiCoreState) (hc : activeCount s ≤ 1) :
    activeCount (guii_widget_create s) ≤ 1 := by
  unfold activeCount guii_widget_create
  rw [List.countP_cons]
  simpa using hc

/-- Removal can only lower the focus count. -/
theorem focusCount_remove_le (s : GuiCoreState) (h : Nat)
    (hc : focusCount s ≤ 1) : focusCount (gui_widget_remove s h) ≤ 1 := by
  unfold focusCount gui_widget_remove
  exact le_trans (List.Sublist.countP_le _ (List.filter_sublist _)) hc

/-- Removal can only lower the active count. -/
theorem activeCount_remove_le (s : GuiCoreState) (h : Nat)
    (hc : activeCount s ≤ 1) : activeCount (gui_widget_remove s h) ≤ 1 := by
  unfold activeCount gui_widget_remove
  exact le_trans (List.Sublist.countP_le _ (List.filter_sublist _)) hc

/-- Every reachable state has distinct addresses, at most one focused
widget and at most one active widget. -/
theorem reach_invariant (s : GuiCoreState) (hr : Reach s) :
    idsNodup s ∧ focusCount s ≤ 1 ∧ activeCount s ≤ 1 := by
  induction hr with
  | init =>
    exact ⟨List.nodup_nil, Nat.zero_le 1, Nat.zero_le 1⟩
  | create t _ ih =>
    exact ⟨idsNodup_create t ih.1, focusCount_create_le t ih.2.1,
      activeCount_create_le t ih.2.2⟩
  | fset t h _ ih =>
    exact ⟨idsNodup_fset t h ih.1, focusCount_fset_le t h ih.1 ih.2.1,
      le_of_eq_of_le (activeCount_fset_eq t h) ih.2.2⟩
  | fclear t _ ih =>
    exact ⟨idsNodup_fclear t ih.1, focusCount_fclear_le t ih.2.1,
      le_of_eq_of_le (activeCount_fclear_eq t) ih.2.2⟩
  | aset t h _ ih =>
    exact ⟨idsNodup_aset t h ih.1,
      le_of_eq_of_le (focusCount_aset_eq t h) ih.2.1,
      activeCount_aset_le t h ih.1 ih.2.2⟩
  | aclear t _ ih =>
    exact ⟨idsNodup_aclear t ih.1,
      le_of_eq_of_le (focusCount_aclear_eq t) ih.2.1,
      activeCount_aclear_le t ih.2.2⟩
  | remove t h _ ih =>
    exact ⟨idsNodup_remove t h ih.1, focusCount_remove_le t h ih.2.1,
      activeCount_remove_le t h ih.2.2⟩

/-- C5: in every state of the focus/active manager reachable from the
initial state by the widget-core transitions (create, set focus, clear
focus, set active, clear active, remove - including removal of the current
holder), at most one widget has the focus flag set and at most one widget
has the active flag set. -/
theorem focus_active_at_most_one (s : GuiCoreState) (hr : Reach s) :
    focusCount s ≤ 1 ∧ activeCount s ≤ 1 :=
  ⟨(reach_invariant s hr).2.1, (reach_invariant s hr).2.2⟩

/-- C5 witness: create two widgets, focus address 1, activate address 2,
remove the focus holder. -/
theorem focus_active_at_most_one_witness :
    focusCount (gui_widget_remove (guii_widget_active_set
      (guii_widget_focus_set (guii_widget_create (guii_widget_create
        initState)) 1) 2) 1) ≤ 1 ∧
    activeCount (gui_widget_remove (guii_widget_active_set
      (guii_widget_focus_set (guii_widget_create (guii_widget_create
        initState)) 1) 2) 1) ≤ 1 :=
  focus_active_at_most_one _
    (Reach.remove _ 1 (Reach.aset _ 2 (Reach.fset _ 1
      (Reach.create _ (Reach.create _ Reach.init)))))

end EasyGUI
